import Mathlib

/-!
Shallow embedding of the trigger-and-lifecycle engine of the Hyperliquid
trading bot: the position ledger (tracker.py), the candle-close stop-loss
monitor (candle_service.py) and the pending-order monitor (tv_service.py).
Prices and quantities are modelled as exact rationals; wall-clock
timestamps (datetime.now fields such as created_at / updated_at) are
omitted, and the closed_at timestamp is modelled as a Boolean flag
recording whether it has been set.  Candle timestamps are integers.
-/

namespace HLBot

/-- Execution-detail log entry appended by the ledger mutations
(tracker.py: the execution_detail dicts). -/
structure ExecDetail where
  kind : String
  price : Rat
  qty : Rat
  remaining_qty : Rat
  deriving DecidableEq, Repr

/-- Trade record of the position ledger (tracker.py, add_trade).
Timestamp strings (created_at, updated_at, tp1_timestamp, tp2_timestamp)
are omitted; closed_at is modelled by the Boolean field closed. -/
structure Trade where
  currency : String
  timeframe : String
  qty_usd : Rat
  qty_asset : Rat
  original_qty_asset : Rat
  current_qty_asset : Rat
  entry_price : Rat
  exit_price : Option Rat
  side : String
  stop_loss_price : Rat
  take_profit_1 : Option Rat
  take_profit_2 : Option Rat
  leverage : Option Int
  status : String
  hyperliquid_order_id : Option String
  absolute_sl_price : Rat
  absolute_sl_active : Bool
  absolute_sl_order_id : Option String
  candle_close_sl_price : Rat
  candle_close_sl_active : Bool
  candle_sl_timeframe : String
  tp1_achieved : Bool
  tp1_price : Option Rat
  tp1_qty_closed : Rat
  tp2_achieved : Bool
  tp2_price : Option Rat
  tp2_qty_closed : Rat
  realized_pnl_usd : Rat
  sl_triggered_by : Option String
  sl_trigger_price : Option Rat
  closed : Bool
  execution_details : List ExecDetail
  deriving DecidableEq, Repr

/-- Python str.upper(), character by character. -/
def pyUpper (s : String) : String := String.mk (s.data.map Char.toUpper)

/-- Python str.lower(), character by character. -/
def pyLower (s : String) : String := String.mk (s.data.map Char.toLower)

/-- TradeTracker.add_trade: the fresh trade record (tracker.py lines 14-92). -/
def add_trade (currency timeframe : String) (qty_usd qty_asset entry_price : Rat)
    (side : String) (stop_loss_price : Rat)
    (hyperliquid_order_id : Option String := none)
    (original_qty_asset : Option Rat := none)
    (take_profit_1 : Option Rat := none) (take_profit_2 : Option Rat := none)
    (leverage : Option Int := none)
    (candle_sl_timeframe : Option String := none) : Trade :=
  { currency := pyUpper currency
    timeframe := timeframe
    qty_usd := qty_usd
    qty_asset := qty_asset
    original_qty_asset := original_qty_asset.getD qty_asset
    current_qty_asset := qty_asset
    entry_price := entry_price
    exit_price := none
    side := pyLower side
    stop_loss_price := stop_loss_price
    take_profit_1 := take_profit_1
    take_profit_2 := take_profit_2
    leverage := leverage
    status := "active"
    hyperliquid_order_id := hyperliquid_order_id
    absolute_sl_price := stop_loss_price
    absolute_sl_active := true
    absolute_sl_order_id := none
    candle_close_sl_price := stop_loss_price
    candle_close_sl_active := true
    candle_sl_timeframe := candle_sl_timeframe.getD timeframe
    tp1_achieved := false
    tp1_price := none
    tp1_qty_closed := 0
    tp2_achieved := false
    tp2_price := none
    tp2_qty_closed := 0
    realized_pnl_usd := 0
    sl_triggered_by := none
    sl_trigger_price := none
    closed := false
    execution_details := [] }

/-- Valid statuses accepted by update_trade_status (tracker.py lines 102-111). -/
def valid_statuses : List String :=
  ["active", "tp1_achieved", "tp2_achieved", "fully_closed",
   "stopped_out", "negated", "manual_close", "cancelled"]

/-- TradeTracker.update_trade_status on an existing trade record
(tracker.py lines 94-131).  A new_status outside valid_statuses raises
ValueError, modelled as none.  Any valid status is set unconditionally. -/
def update_trade_status (t : Trade) (new_status : String) (exit_price : Option Rat) :
    Option Trade :=
  if new_status ∈ valid_statuses then
    let t1 := { t with status := new_status }
    let t2 := match exit_price with
      | some ep => { t1 with exit_price := some ep }
      | none => t1
    some (if new_status ∈ ["fully_closed", "stopped_out", "negated", "manual_close"]
          then { t2 with closed := true } else t2)
  else none

/-- TradeTracker._update_realized_pnl (tracker.py lines 254-269). -/
def update_realized_pnl (t : Trade) (exit_price qty_closed : Rat) : Trade :=
  let pnl_per_unit := if t.side = "long" then exit_price - t.entry_price
                      else t.entry_price - exit_price
  let portion_pnl_usd := (pnl_per_unit / t.entry_price) * (qty_closed * t.entry_price)
  { t with realized_pnl_usd := t.realized_pnl_usd + portion_pnl_usd }

/-- TradeTracker.update_trade_tp1 on an existing trade record
(tracker.py lines 142-173).  Note: the source subtracts qty_closed from
current_qty_asset without any bound check. -/
def update_trade_tp1 (t : Trade) (tp1_price qty_closed : Rat) : Trade :=
  let t1 := { t with
    tp1_achieved := true
    tp1_price := some tp1_price
    take_profit_1 := some tp1_price
    tp1_qty_closed := qty_closed
    current_qty_asset := t.current_qty_asset - qty_closed
    status := "tp1_achieved" }
  let t2 := { t1 with execution_details := t1.execution_details ++
    [{ kind := "tp1", price := tp1_price, qty := qty_closed,
       remaining_qty := t1.current_qty_asset }] }
  update_realized_pnl t2 tp1_price qty_closed

/-- TradeTracker.update_trade_tp2 on an existing trade record
(tracker.py lines 217-252).  The qty_closed argument of the source is
ignored: the full remaining quantity is closed. -/
def update_trade_tp2 (t : Trade) (tp2_price _qty_closed : Rat) : Trade :=
  let remaining_qty := t.current_qty_asset
  let t1 := { t with
    tp2_achieved := true
    tp2_price := some tp2_price
    take_profit_2 := some tp2_price
    tp2_qty_closed := remaining_qty
    current_qty_asset := 0
    status := "fully_closed"
    closed := true
    exit_price := some tp2_price }
  let t2 := { t1 with execution_details := t1.execution_details ++
    [{ kind := "tp2", price := tp2_price, qty := remaining_qty,
       remaining_qty := 0 }] }
  update_realized_pnl t2 tp2_price remaining_qty

/-- The status_map dict lookup with default of close_trade_fully
(tracker.py lines 336-344). -/
def status_map_get (reason : String) : String :=
  if reason = "tp1" then "tp1_achieved"
  else if reason = "tp2" then "fully_closed"
  else if reason = "negated" then "negated"
  else if reason = "stopped_out" then "stopped_out"
  else if reason = "manual" then "manual_close"
  else "manual_close"

/-- TradeTracker.close_trade_fully on an existing trade record
(tracker.py lines 323-364): mutate exit price / quantity / log / P&L, then
delegate to update_trade_status. -/
def close_trade_fully (t : Trade) (exit_price : Rat) (reason : String) : Option Trade :=
  let new_status := status_map_get reason
  let remaining_qty := t.current_qty_asset
  let t1 := { t with
    exit_price := some exit_price
    current_qty_asset := 0
    closed := true }
  let t2 := { t1 with execution_details := t1.execution_details ++
    [{ kind := "full_close_" ++ reason, price := exit_price, qty := remaining_qty,
       remaining_qty := 0 }] }
  let t3 := update_realized_pnl t2 exit_price remaining_qty
  update_trade_status t3 new_status (some exit_price)

/-- The close_trade_partial method of TradeTracker on an existing trade record
(tracker.py lines 366-404); none models the early False return when
qty_to_close exceeds the current position. -/
def close_trade_partial (t : Trade) (exit_price qty_to_close : Rat)
    (reason : String := "partial") : Option Trade :=
  if qty_to_close > t.current_qty_asset then none
  else
    let t1 := { t with current_qty_asset := t.current_qty_asset - qty_to_close }
    let t2 := { t1 with execution_details := t1.execution_details ++
      [{ kind := "partial_close_" ++ reason, price := exit_price, qty := qty_to_close,
         remaining_qty := t1.current_qty_asset }] }
    let t3 := update_realized_pnl t2 exit_price qty_to_close
    some (if t3.current_qty_asset ≤ 0
          then { t3 with status := "fully_closed", closed := true,
                         exit_price := some exit_price }
          else t3)

/-- Ledger-mutating operations of the claims: TP1, TP2, full close, partial
close. -/
inductive LedgerOp where
  | tp1 (price qty : Rat)
  | tp2 (price qty : Rat)
  | closeFull (price : Rat) (reason : String)
  | closePartial (price qty : Rat) (reason : String)
  deriving DecidableEq, Repr

/-- Apply one ledger-mutating operation to a trade record; the fallible
operations leave the record unchanged on their False return path
(close_trade_fully never actually fails since status_map_get only yields
valid statuses). -/
def ledgerStep (t : Trade) : LedgerOp → Trade
  | .tp1 price qty => update_trade_tp1 t price qty
  | .tp2 price qty => update_trade_tp2 t price qty
  | .closeFull price reason => (close_trade_fully t price reason).getD t
  | .closePartial price qty reason => ( close_trade_partial t price qty reason).getD t

/-- Preconditions of the ledger operations at the state where they are
applied: closed quantities are nonnegative, and TP1 (which the source does
not bound-check) requires qty ≤ current_qty_asset as the spec states. -/
def opPre (t : Trade) : LedgerOp → Prop
  | .tp1 _ qty => 0 ≤ qty ∧ qty ≤ t.current_qty_asset
  | .tp2 _ _ => True
  | .closeFull _ _ => True
  | .closePartial _ qty _ => 0 ≤ qty

instance (t : Trade) (op : LedgerOp) : Decidable (opPre t op) :=
  match op with
  | .tp1 _ q => inferInstanceAs (Decidable (0 ≤ q ∧ q ≤ t.current_qty_asset))
  | .tp2 _ _ => inferInstanceAs (Decidable True)
  | .closeFull _ _ => inferInstanceAs (Decidable True)
  | .closePartial _ q _ => inferInstanceAs (Decidable (0 ≤ q))

/-- A sequence of ledger operations is valid from a trade record when each
operation meets its precondition at the state it is applied to. -/
def opsValid : Trade → List LedgerOp → Prop
  | _, [] => True
  | t, op :: rest => opPre t op ∧ opsValid (ledgerStep t op) rest

/-- Decidability of opsValid, by recursion over the operation list. -/
def opsValidDec : (t : Trade) → (ops : List LedgerOp) → Decidable (opsValid t ops)
  | _, [] => .isTrue trivial
  | t, op :: rest =>
    @instDecidableAnd _ _ (inferInstance) (opsValidDec (ledgerStep t op) rest)

instance (t : Trade) (ops : List LedgerOp) : Decidable (opsValid t ops) :=
  opsValidDec t ops

/-- In-memory tracker together with the persisted JSON file content
(tracker.py: self.trades and the file written by save_to_json).  The file
field holds the trade set as of the last write. -/
structure TrackerState where
  trades : List (String × Trade)
  file : List (String × Trade)
  deriving DecidableEq, Repr

/-- The close_trade_partial method of TradeTracker at the tracker level (tracker.py lines
366-404), including the uuid lookup and the write-through save_to_json on
the success path. -/
def close_trade_partial_tracker (tr : TrackerState) (trade_uuid : String)
    (exit_price qty_to_close : Rat) (reason : String := "partial") :
    Bool × TrackerState :=
  match tr.trades.lookup trade_uuid with
  | none => (false, tr)
  | some t =>
    match close_trade_partial t exit_price qty_to_close reason with
    | none => (false, tr)
    | some t' =>
      let trades' := tr.trades.map (fun p => if p.1 = trade_uuid then (trade_uuid, t') else p)
      (true, { trades := trades', file := trades' })

/-- Completed candle as returned by get_reference_candle /
get_latest_candle: timestamp and OHLC prices (volume omitted). -/
structure Candle where
  timestamp : Int
  openP : Rat
  high : Rat
  low : Rat
  close : Rat
  deriving DecidableEq, Repr

/-- CandleCloseStopLoss dataclass (candle_service.py lines 18-29);
created_at (wall clock) omitted. -/
structure CandleCloseStopLoss where
  order_id : String
  asset : String
  stop_price : Rat
  timeframe : String
  is_long : Bool
  position_size : Rat
  last_checked_candle : Option Int := none
  deriving DecidableEq, Repr

/-- Registry and monitoring flag of CandleCloseStopLossManager
(candle_service.py: active_stops and monitoring). -/
structure SLManagerState where
  active_stops : List (String × CandleCloseStopLoss)
  monitoring : Bool
  deriving DecidableEq, Repr

/-- Observable side effects of a stop-loss tick: market order placement,
cancellation of the resting absolute stop order, the ledger update
recording the triggered stop, and removal of a watch from the registry. -/
inductive SLEffect where
  | placeOrder (asset : String) (is_buy : Bool) (size : Rat)
  | cancelAbsSL (asset : String) (sl_order_id : String)
  | trackerStopTriggered (uuid : String) (trigger_price : Rat)
  | removeWatch (order_id : String)
  deriving DecidableEq, Repr

/-- Ledger view needed by execute_stop_loss: the trade found by
get_trade_by_hyperliquid_id, reduced to the fields the code reads. -/
structure TradeRef where
  uuid : String
  absolute_sl_order_id : Option String
  deriving DecidableEq, Repr

/-- External collaborators of the stop-loss monitor: candle fetch per
(asset, timeframe), market-order success, and the tracker lookup.  A tick
against a fixed SLEnv models a tick during which the reference data does
not change. -/
structure SLEnv where
  candle : String → String → Option Candle
  order_ok : String → Bool → Rat → Bool
  trade_by_order : String → Option TradeRef

/-- Dict-style upsert for the registries (python dict assignment by key). -/
def upsert {α : Type} (key : String) (v : α) :
    List (String × α) → List (String × α)
  | [] => [(key, v)]
  | p :: rest => if p.1 = key then (key, v) :: rest else p :: upsert key v rest

/-- CandleCloseStopLossManager.add_candle_close_stop_loss
(candle_service.py lines 68-128).  Python falsiness of the string
arguments is the empty string; on success the watch is stored and
monitoring is (re)started. -/
def add_candle_close_stop_loss (st : SLManagerState) (order_id asset : String)
    (stop_price : Rat) (timeframe : String) (is_long : Bool)
    (position_size : Rat) : Bool × SLManagerState :=
  if order_id = "" ∨ asset = "" ∨ timeframe = "" then (false, st)
  else if stop_price ≤ 0 ∨ position_size ≤ 0 then (false, st)
  else
    let sl : CandleCloseStopLoss :=
      { order_id := order_id, asset := asset, stop_price := stop_price,
        timeframe := timeframe, is_long := is_long,
        position_size := position_size, last_checked_candle := none }
    (true, { active_stops := upsert order_id sl st.active_stops, monitoring := true })

/-- CandleCloseStopLossManager.execute_stop_loss (candle_service.py lines
284-363): place the flattening market order; only if the gateway returns a
result, cancel the resting absolute stop (when the trade is found and has
one) and record the trigger on the trade.  A failed order is only
logged. -/
def execute_stop_loss (env : SLEnv) (sl : CandleCloseStopLoss)
    (trigger_price : Rat) : List SLEffect :=
  let position_size := |sl.position_size|
  let is_buy := !sl.is_long
  let placed := [SLEffect.placeOrder sl.asset is_buy position_size]
  if env.order_ok sl.asset is_buy position_size then
    match env.trade_by_order sl.order_id with
    | some tr =>
      let cancelEff := match tr.absolute_sl_order_id with
        | some oid => [SLEffect.cancelAbsSL sl.asset oid]
        | none => []
      placed ++ cancelEff ++ [SLEffect.trackerStopTriggered tr.uuid trigger_price]
    | none => placed
  else placed

/-- One watch of the loop body of check_stop_loss_conditions
(candle_service.py lines 199-251): returns the (possibly in-place updated)
watch, the effects it produced, and whether its id was appended to
stops_to_remove. -/
def checkOne (env : SLEnv) (sl : CandleCloseStopLoss) :
    CandleCloseStopLoss × List SLEffect × Bool :=
  match env.candle sl.asset sl.timeframe with
  | none => (sl, [], false)
  | some c =>
    let stale : Bool := match sl.last_checked_candle with
      | some lc => decide (c.timestamp ≤ lc)
      | none => false
    if stale then (sl, [], false)
    else
      let sl' := { sl with last_checked_candle := some c.timestamp }
      let stop_triggered := if sl.is_long then c.close ≤ sl.stop_price
                            else c.close ≥ sl.stop_price
      if stop_triggered then (sl', execute_stop_loss env sl' c.close, true)
      else (sl', [], false)

/-- Scan of all registered watches in order: updated entries, the
stops_to_remove ids, and the concatenated effects. -/
def scanStops (env : SLEnv) :
    List (String × CandleCloseStopLoss) →
    List (String × CandleCloseStopLoss) × List String × List SLEffect
  | [] => ([], [], [])
  | (oid, sl) :: rest =>
    let r := checkOne env sl
    let rec' := scanStops env rest
    ((oid, r.1) :: rec'.1,
     (if r.2.2 then [oid] else []) ++ rec'.2.1,
     r.2.1 ++ rec'.2.2)

/-- CandleCloseStopLossManager.check_stop_loss_conditions
(candle_service.py lines 193-282): scan every watch against the latest
candle, then delete the triggered ids from the registry.  Returns the new
manager state and the effects of the tick (registry removals included). -/
def check_stop_loss_conditions (env : SLEnv) (st : SLManagerState) :
    SLManagerState × List SLEffect :=
  let scanned := scanStops env st.active_stops
  let newStops := scanned.1.filter (fun p => !(scanned.2.1.contains p.1))
  ({ active_stops := newStops, monitoring := st.monitoring },
   scanned.2.2 ++ scanned.2.1.map SLEffect.removeWatch)

/-- Assets quoted in k-units on the exchange (execution_service.py line 13). -/
def specialAssets : List String := ["PEPE", "SHIB", "FLOKI", "BONK"]

/-- Python str.startswith for a single-character prefix. -/
def startsWithChar (c : Char) (s : String) : Bool :=
  match s.data with
  | [] => false
  | c0 :: _ => c0 = c

/-- HyperLiquidExecutionService.get_asset_name (execution_service.py lines
74-78). -/
def get_asset_name (rawAssetName : String) : String :=
  let u := pyUpper rawAssetName
  if u ∈ specialAssets then "k" ++ u else u

/-- HyperLiquidExecutionService.get_correct_price (execution_service.py
lines 164-167): prices of assets whose name starts with the k prefix are
scaled by 1000. -/
def get_correct_price (assetName : String) (price : Rat) : Rat :=
  if startsWithChar 'k' assetName then price * 1000 else price

/-- PendingTrade dataclass (tv_service.py lines 20-39); created_at and the
raw webhook payload are omitted. -/
structure PendingTrade where
  id : String
  symbol : String
  timeframe : String
  is_long : Bool
  mid_price : Rat
  negation_price : Rat
  amount_usd : Rat
  reference_candle : Candle
  leverage : Int := 1
  use_candle_close_sl : Bool := true
  abs_stop_loss_price : Rat := 0
  deriving DecidableEq, Repr

/-- Successful result dict of place_market_order (execution_service.py
lines 348-354). -/
structure OrderRes where
  asset_amount : Rat
  order_id : String
  avg_price : Rat
  total_usd : Rat
  deriving DecidableEq, Repr

/-- Python round(x, d) on the asset amount, modelled on rationals (the
float tie-breaking of banker's rounding is immaterial to the claims). -/
def py_round_to (d : Nat) (x : Rat) : Rat :=
  (round (x * (10 : Rat) ^ d) : Int) / (10 : Rat) ^ d

/-- External collaborators of the execution handoff
(_execute_pending_trade): last price, szDecimals of the asset, and the
market-order gateway keyed by (symbol, is_buy, amount). -/
structure ExecEnv where
  last_price : String → Option Rat
  info_szDecimals : String → Option Nat
  place_order : String → Bool → Rat → Option OrderRes

/-- Arguments of the add_candle_close_stop_loss call issued by the
execution handoff (tv_service.py lines 403-410).  The order_id actually
passed is the Python str() of the whole result dict rather than the order
id; no claim depends on the key, so it is omitted here. -/
structure WatchReq where
  asset : String
  stop_price : Rat
  timeframe : String
  is_long : Bool
  position_size : Rat
  deriving DecidableEq, Repr

/-- TradingViewWebhookService._execute_pending_trade (tv_service.py lines
295-445): validate the pending trade, fetch price and asset info, quantize
the amount, place the market order; on success create the ledger trade and
request the candle-close stop watch — with the pending trade's negation
price as the watch's stop price.  Both outputs are none on any abort
path. -/
def execute_pending_trade (env : ExecEnv) (pt : PendingTrade) :
    Option Trade × Option WatchReq :=
  if pt.abs_stop_loss_price = 0 then (none, none)
  else if pt.amount_usd = 0 then (none, none)
  else
    let assetName := get_asset_name pt.symbol
    match env.last_price pt.symbol with
    | none => (none, none)
    | some p0 =>
      let current_price := get_correct_price assetName p0
      match env.info_szDecimals pt.symbol with
      | none => (none, none)
      | some szDecimal =>
        let assetAmount := py_round_to szDecimal (pt.amount_usd / current_price)
        match env.place_order pt.symbol pt.is_long assetAmount with
        | none => (none, none)
        | some res =>
          let tr := add_trade pt.symbol pt.timeframe pt.amount_usd
            res.asset_amount current_price
            (if pt.is_long then "long" else "short") pt.abs_stop_loss_price
            (some res.order_id) (some res.asset_amount) none none
            (some pt.leverage) (some pt.timeframe)
          let w : WatchReq :=
            { asset := pt.symbol, stop_price := pt.negation_price,
              timeframe := pt.timeframe, is_long := pt.is_long,
              position_size := res.asset_amount }
          (some tr, some w)

/-- External collaborators of the pending-order monitor tick: reference
candle and last price. -/
structure MonEnv where
  candle : String → String → Option Candle
  last_price : String → Option Rat

/-- Outcome of one pending-trade check in _monitor_prices: skipped (missing
data), negated (removed, nothing executed), entry (removed and handed off
for execution), or left pending. -/
inductive MonitorAction where
  | skip
  | negate
  | enter
  | hold
  deriving DecidableEq, Repr

/-- Per-pending-trade body of the _monitor_prices loop (tv_service.py lines
139-235): fetch the reference candle (skip when missing), compute the
negation condition from its close, fetch and correct the current price
(skip when missing), then act on negation before the entry check. -/
def monitor_check (env : MonEnv) (pt : PendingTrade) : MonitorAction :=
  match env.candle pt.symbol pt.timeframe with
  | none => .skip
  | some c =>
    let last_candle_closing_price := c.close
    let negation_triggered : Bool :=
      if pt.is_long then last_candle_closing_price ≤ pt.negation_price
      else last_candle_closing_price ≥ pt.negation_price
    match env.last_price pt.symbol with
    | none => .skip
    | some p0 =>
      let current_price := get_correct_price (get_asset_name pt.symbol) p0
      if negation_triggered then .negate
      else
        let entry_triggered : Bool :=
          if pt.is_long then current_price ≤ pt.mid_price
          else current_price ≥ pt.mid_price
        if entry_triggered then .enter else .hold

/-- One tick of _monitor_prices over the pending-trade registry
(tv_service.py lines 133-271): collect removals and executions per entry,
pop the removed ids, and return (remaining registry, trades handed off for
execution). -/
def monitor_tick (env : MonEnv) (pts : List (String × PendingTrade)) :
    List (String × PendingTrade) × List PendingTrade :=
  let decisions := pts.map (fun p => (p.1, p.2, monitor_check env p.2))
  let trades_to_remove := (decisions.filter
    (fun x => x.2.2 == MonitorAction.negate || x.2.2 == MonitorAction.enter)).map (·.1)
  let trades_to_execute := (decisions.filter
    (fun x => x.2.2 == MonitorAction.enter)).map (·.2.1)
  (pts.filter (fun p => !(trades_to_remove.contains p.1)), trades_to_execute)

/-- External state read by handle_entry_alert: the dynamic USD sizing, the
number of currently active trades, and the reference-candle fetch. -/
structure EntryEnv where
  dynamic_usd : Rat
  active_trades_count : Nat
  candle : String → String → Option Candle

/-- TradingViewWebhookService.handle_entry_alert (tv_service.py lines
615-714): reject when five or more trades are active or the reference
candle is missing; otherwise build the PendingTrade with trigger price the
candle midpoint and negation price the candle low (long) or high (short),
both passed through get_correct_price; the absolute stop is 0.8 times the
low (long) or 1.2 times the high (short).  The creation-epoch suffix of
the id is omitted. -/
def handle_entry_alert (env : EntryEnv) (alert_type symbol timeframe : String) :
    Option PendingTrade :=
  let is_long := alert_type = "enter_long"
  let amount_usd := env.dynamic_usd
  let leverage : Int := 1
  if env.active_trades_count ≥ 5 then none
  else
    match env.candle symbol timeframe with
    | none => none
    | some c =>
      let mid_price := (c.high + c.low) / 2
      let negation_price := if is_long then c.low else c.high
      let abs_stop_loss_price := if is_long then c.low * (8 / 10) else c.high * (12 / 10)
      let asset_name := get_asset_name symbol
      let mid' := get_correct_price asset_name mid_price
      let neg' := get_correct_price asset_name negation_price
      some { id := symbol ++ "_" ++ timeframe ++ "_" ++ alert_type,
             symbol := symbol, timeframe := timeframe, is_long := is_long,
             mid_price := mid', negation_price := neg',
             amount_usd := amount_usd, reference_candle := c,
             leverage := leverage, use_candle_close_sl := true,
             abs_stop_loss_price := abs_stop_loss_price }

/-- TradingViewWebhookService.calculate_optimal_tp1_close_amount
(tv_service.py lines 1008-1019): returns (close_amount, skip_tp2). -/
def calculate_optimal_tp1_close_amount (original_qty current_price : Rat)
    (min_usd : Rat := 20) : Rat × Bool :=
  let remaining_after_50pct := (original_qty * (1 / 2)) * current_price
  if remaining_after_50pct < min_usd then (original_qty, true)
  else (original_qty * (1 / 2), false)

/-- Per-trade TP1 branch of handle_tp_alert (tv_service.py lines 776-831):
size the close with calculate_optimal_tp1_close_amount at a 20 USD floor;
when the market order succeeds, either mark the trade fully closed
(skipping TP2) or record a normal TP1; on order failure the trade is left
untouched. -/
def handle_tp1_for_trade (order_ok : Bool) (t : Trade) (current_price : Rat) :
    Trade :=
  let sized := calculate_optimal_tp1_close_amount t.original_qty_asset current_price 20
  if order_ok then
    if sized.2 then
      (update_trade_status t "fully_closed" (some current_price)).getD t
    else update_trade_tp1 t current_price sized.1
  else t

/-- Sample trade used for concrete instantiations: 1 unit of BTC bought at
entry price 100 with stop at 90. -/
def c8_trade : Trade := add_trade "BTC" "1h" 100 1 100 "long" 90

/-- Sample trade for the partial-close instantiation: 2 ETH at entry 50. -/
def c9_trade : Trade := add_trade "ETH" "4h" 100 2 50 "long" 40

/-- Tracker holding the sample ETH trade, persisted file in sync. -/
def c9_tracker : TrackerState :=
  { trades := [("u1", c9_trade)], file := [("u1", c9_trade)] }

/-- Empty stop-loss manager, monitoring off. -/
def c10_state : SLManagerState := { active_stops := [], monitoring := false }

/-- Pending long BTC trade with trigger 105, negation 100 and absolute
stop 80, waiting on a 20 USD notional. -/
def c5_pt : PendingTrade :=
  { id := "BTC_1h_enter_long", symbol := "BTC", timeframe := "1h",
    is_long := true, mid_price := 105, negation_price := 100,
    amount_usd := 20, reference_candle := Candle.mk 1 104 110 100 104,
    leverage := 1, use_candle_close_sl := true, abs_stop_loss_price := 80 }

/-- Successful market-order fill for the pending BTC trade. -/
def c5_res : OrderRes :=
  { asset_amount := 24 / 125, order_id := "777", avg_price := 104,
    total_usd := 20 }

/-- Execution environment where the price is 104, the asset has 3 size
decimals and every market order fills as c5_res. -/
def c5_env : ExecEnv :=
  { last_price := fun _ => some 104,
    info_szDecimals := fun _ => some 3,
    place_order := fun _ _ _ => some c5_res }

/-- Pending long ETH trade with trigger 105 and negation 100. -/
def c6_pt : PendingTrade :=
  { id := "ETH_1h_enter_long", symbol := "ETH", timeframe := "1h",
    is_long := true, mid_price := 105, negation_price := 100,
    amount_usd := 20, reference_candle := Candle.mk 1 104 110 100 104,
    leverage := 1, use_candle_close_sl := true, abs_stop_loss_price := 80 }

/-- Monitoring environment whose candle closes at 99 (at or below the
negation level 100) while the live price 99 is also at or below the entry
trigger 105 — both conditions hold on the same observation. -/
def c6_env : MonEnv :=
  { candle := fun _ _ => some (Candle.mk 2 101 102 98 99),
    last_price := fun _ => some 99 }

/-- Entry-alert environment: 20 USD sizing, no active trades, reference
candle with high 110 and low 100. -/
def c7_env : EntryEnv :=
  { dynamic_usd := 20, active_trades_count := 0,
    candle := fun _ _ => some (Candle.mk 3 104 110 100 104) }

/-- Long ETH stop watch that has already evaluated the candle at time 200. -/
def c3_watch : CandleCloseStopLoss :=
  { order_id := "w1", asset := "ETH", stop_price := 90, timeframe := "1h",
    is_long := true, position_size := 2, last_checked_candle := some 200 }

/-- Environment whose latest completed candle (timestamp 150, close 100)
is not newer than what c3_watch has already evaluated. -/
def c3_env : SLEnv :=
  { candle := fun _ _ => some (Candle.mk 150 100 101 99 100),
    order_ok := fun _ _ _ => true,
    trade_by_order := fun _ => none }

/-- Manager holding only c3_watch. -/
def c3_state : SLManagerState :=
  { active_stops := [("w1", c3_watch)], monitoring := true }

/-- Fresh long BTC stop watch at stop price 95 protecting 1 unit. -/
def c4_watch : CandleCloseStopLoss :=
  { order_id := "o1", asset := "BTC", stop_price := 95, timeframe := "1h",
    is_long := true, position_size := 1, last_checked_candle := none }

/-- Environment with a new candle closing at 90 (below the stop) whose
order gateway always fails (place_market_order returns None). -/
def c4_env : SLEnv :=
  { candle := fun _ _ => some (Candle.mk 100 96 97 89 90),
    order_ok := fun _ _ _ => false,
    trade_by_order := fun _ => none }

/-- Manager holding only c4_watch. -/
def c4_state : SLManagerState :=
  { active_stops := [("o1", c4_watch)], monitoring := true }

/-- Sample operation sequence: TP1 closing half, then a quarter partial
close, then TP2 closing the rest. -/
def c1_ops : List LedgerOp :=
  [LedgerOp.tp1 110 (1 / 2), LedgerOp.closePartial 105 (1 / 4) "partial",
   LedgerOp.tp2 120 0]

/-- Sample freshly created trade: 1 BTC at entry 100, stop 90. -/
def c1_trade : Trade := add_trade "BTC" "1h" 100 1 100 "long" 90

/-!  Theorems.  -/

/-- Realized-P&L bookkeeping never touches the remaining quantity. -/
lemma update_realized_pnl_current (t : Trade) (ep q : Rat) :
    (update_realized_pnl t ep q).current_qty_asset = t.current_qty_asset := by
  simp [update_realized_pnl]

/-- TP1 subtracts exactly the closed quantity. -/
lemma update_trade_tp1_current (t : Trade) (p q : Rat) :
    (update_trade_tp1 t p q).current_qty_asset = t.current_qty_asset - q := by
  simp [update_trade_tp1, update_realized_pnl]

/-- TP2 zeroes the remaining quantity. -/
lemma update_trade_tp2_current (t : Trade) (p q : Rat) :
    (update_trade_tp2 t p q).current_qty_asset = 0 := by
  simp [update_trade_tp2, update_realized_pnl]

/-- Every reason maps to a whitelisted status, so close_trade_fully never
hits the ValueError branch of update_trade_status. -/
lemma status_map_get_valid (r : String) : status_map_get r ∈ valid_statuses := by
  unfold status_map_get
  repeat' split
  all_goals decide

/-- Full close zeroes the remaining quantity. -/
lemma close_trade_fully_current (t : Trade) (ep : Rat) (r : String) :
    ((close_trade_fully t ep r).getD t).current_qty_asset = 0 := by
  unfold close_trade_fully update_trade_status
  rw [if_pos (status_map_get_valid r)]
  simp [update_realized_pnl, apply_ite Trade.current_qty_asset]

/-- Rejected partial close leaves the trade unchanged; an accepted one
subtracts the closed quantity. -/
lemma close_trade_partial_current (t : Trade) (ep q : Rat) (r : String) :
    (( close_trade_partial t ep q r).getD t).current_qty_asset =
      if q > t.current_qty_asset then t.current_qty_asset
      else t.current_qty_asset - q := by
  unfold close_trade_partial
  by_cases hgt : q > t.current_qty_asset
  · rw [if_pos hgt, if_pos hgt]
    rfl
  · rw [if_neg hgt, if_neg hgt]
    simp [update_realized_pnl, apply_ite Trade.current_qty_asset]

/-- Any ledger operation meeting its precondition does not increase the
remaining quantity. -/
lemma ledgerStep_current_le (t : Trade) (op : LedgerOp)
    (h0 : 0 ≤ t.current_qty_asset) (hp : opPre t op) :
    (ledgerStep t op).current_qty_asset ≤ t.current_qty_asset := by
  cases op with
  | tp1 p q =>
    rw [ledgerStep, update_trade_tp1_current]
    have hq : 0 ≤ q := hp.1
    linarith
  | tp2 p q =>
    rw [ledgerStep, update_trade_tp2_current]
    exact h0
  | closeFull p r =>
    rw [ledgerStep, close_trade_fully_current]
    exact h0
  | closePartial p q r =>
    rw [ledgerStep, close_trade_partial_current]
    by_cases hgt : q > t.current_qty_asset
    · rw [if_pos hgt]
    · rw [if_neg hgt]
      have hq : 0 ≤ q := hp
      linarith

/-- Any ledger operation meeting its precondition keeps the remaining
quantity nonnegative. -/
lemma ledgerStep_current_nonneg (t : Trade) (op : LedgerOp)
    (h0 : 0 ≤ t.current_qty_asset) (hp : opPre t op) :
    0 ≤ (ledgerStep t op).current_qty_asset := by
  cases op with
  | tp1 p q =>
    rw [ledgerStep, update_trade_tp1_current]
    have hq : q ≤ t.current_qty_asset := hp.2
    linarith
  | tp2 p q =>
    rw [ledgerStep, update_trade_tp2_current]
  | closeFull p r =>
    rw [ledgerStep, close_trade_fully_current]
  | closePartial p q r =>
    rw [ledgerStep, close_trade_partial_current]
    by_cases hgt : q > t.current_qty_asset
    · rw [if_pos hgt]
      exact h0
    · rw [if_neg hgt]
      have hq : q ≤ t.current_qty_asset := not_lt.mp hgt
      linarith

/-- Nonnegativity of the remaining quantity is preserved along any valid
operation sequence. -/
lemma opsValid_fold_nonneg (ops : List LedgerOp) (t : Trade)
    (h0 : 0 ≤ t.current_qty_asset) (hv : opsValid t ops) :
    0 ≤ (ops.foldl ledgerStep t).current_qty_asset := by
  induction ops generalizing t with
  | nil => simpa using h0
  | cons op rest ih =>
    obtain ⟨hp, hrest⟩ := hv
    simpa using ih (ledgerStep t op)
      (ledgerStep_current_nonneg t op h0 hp) hrest

/-- C1: starting from a freshly created trade with nonnegative quantity,
any sequence of ledger mutations whose operations meet their
preconditions — TP1 in particular requires a nonnegative closed quantity
of at most current_qty_asset, as the spec states — keeps
current_qty_asset nonnegative, and each single operation applied to a
trade with nonnegative remaining quantity never increases
current_qty_asset. -/
theorem c1_current_qty_monotone_nonneg
    (currency timeframe : String) (qty_usd qty_asset entry_price : Rat)
    (side : String) (stop_loss_price : Rat)
    (hq : 0 ≤ qty_asset) (ops : List LedgerOp)
    (hv : opsValid
      (add_trade currency timeframe qty_usd qty_asset entry_price side stop_loss_price)
      ops) :
    0 ≤ (ops.foldl ledgerStep
      (add_trade currency timeframe qty_usd qty_asset entry_price side
        stop_loss_price)).current_qty_asset ∧
    ∀ (u : Trade) (op : LedgerOp), 0 ≤ u.current_qty_asset → opPre u op →
      (ledgerStep u op).current_qty_asset ≤ u.current_qty_asset := by
  constructor
  · apply opsValid_fold_nonneg _ _ _ hv
    simpa [add_trade] using hq
  · exact fun u op h0 hp => ledgerStep_current_le u op h0 hp

/-- C1, witness: the TP1 / partial-close / TP2 sequence on the sample BTC
trade ends with a nonnegative position, and its first TP1 step does not
increase the position. -/
theorem c1_current_qty_monotone_nonneg_witness :
    0 ≤ (c1_ops.foldl ledgerStep c1_trade).current_qty_asset ∧
    (ledgerStep c1_trade (LedgerOp.tp1 110 (1 / 2))).current_qty_asset ≤
      c1_trade.current_qty_asset :=
  ⟨(c1_current_qty_monotone_nonneg "BTC" "1h" 100 1 100 "long" 90 (by norm_num)
      c1_ops
      ⟨⟨by norm_num, by norm_num [add_trade]⟩, by norm_num [opPre], trivial, trivial⟩).1,
   (c1_current_qty_monotone_nonneg "BTC" "1h" 100 1 100 "long" 90 (by norm_num)
      c1_ops
      ⟨⟨by norm_num, by norm_num [add_trade]⟩, by norm_num [opPre], trivial, trivial⟩).2
     c1_trade (LedgerOp.tp1 110 (1 / 2)) (by norm_num [c1_trade, add_trade])
     ⟨by norm_num, by norm_num [c1_trade, add_trade]⟩⟩

/-- C2, counterexample: update_trade_status enforces no forward-only state
machine.  A trade driven to the terminal status fully_closed by
close_trade_fully is moved straight back to active by update_trade_status,
which returns successfully. -/
theorem c2_counterexample :
    ((close_trade_fully (add_trade "BTC" "1h" 100 1 100 "long" 90) 95 "tp2").map
        Trade.status = some "fully_closed") ∧
    (((close_trade_fully (add_trade "BTC" "1h" 100 1 100 "long" 90) 95 "tp2").bind
        (fun t1 => update_trade_status t1 "active" none)).map Trade.status
      = some "active") := by
  constructor <;> rfl

/-- C2, amended: update_trade_status validates new_status against the
eight-element whitelist (raising ValueError otherwise, modelled as none)
but restricts no transition: whatever the trade's current status —
including the terminal ones — the requested valid status is set
unconditionally. -/
theorem c2_status_set_unconditionally (t : Trade) (s : String) (ep : Option Rat) :
    (update_trade_status t s ep).map Trade.status =
      if s ∈ valid_statuses then some s else none := by
  unfold update_trade_status
  cases ep <;> split <;> simp [apply_ite Trade.status]

/-- C8: TP1 sizing against the minimum-USD floor.  With original quantity
q and current price p, a floor m ≤ (q/2)p gives a half close with TP2 kept,
and (q/2)p below the floor gives a full close; the tick handler then moves
the trade to tp1_achieved in the first case and directly to fully_closed
(skipping TP2) in the second. -/
theorem c8_tp1_sizing (q p m : Rat) (t : Trade) (ht : t.original_qty_asset = q) :
    (m ≤ q * (1 / 2) * p →
      calculate_optimal_tp1_close_amount q p m = (q * (1 / 2), false)) ∧
    (q * (1 / 2) * p < m →
      calculate_optimal_tp1_close_amount q p m = (q, true)) ∧
    (20 ≤ q * (1 / 2) * p →
      (handle_tp1_for_trade true t p).status = "tp1_achieved" ∧
      (handle_tp1_for_trade true t p).tp1_qty_closed = q * (1 / 2)) ∧
    (q * (1 / 2) * p < 20 →
      (handle_tp1_for_trade true t p).status = "fully_closed") := by
  refine ⟨?_, ?_, ?_, ?_⟩
  · intro h
    unfold calculate_optimal_tp1_close_amount
    rw [if_neg (not_lt.mpr h)]
  · intro h
    unfold calculate_optimal_tp1_close_amount
    rw [if_pos h]
  · intro h
    unfold handle_tp1_for_trade calculate_optimal_tp1_close_amount
    rw [ht, if_neg (not_lt.mpr h)]
    simp [update_trade_tp1, update_realized_pnl]
  · intro h
    unfold handle_tp1_for_trade calculate_optimal_tp1_close_amount
    rw [ht, if_pos h]
    simp [update_trade_status, valid_statuses]

/-- C8, witness: q = 1, p = 100, floor 20 gives a half close and status
tp1_achieved; q = 1, p = 10 gives a full close and status fully_closed. -/
theorem c8_tp1_sizing_witness :
    (calculate_optimal_tp1_close_amount 1 100 20 = (1 * (1 / 2), false)) ∧
    ((handle_tp1_for_trade true c8_trade 100).status = "tp1_achieved") ∧
    (calculate_optimal_tp1_close_amount 1 10 20 = (1, true)) ∧
    ((handle_tp1_for_trade true c8_trade 10).status = "fully_closed") :=
  ⟨(c8_tp1_sizing 1 100 20 c8_trade rfl).1 (by norm_num),
   ((c8_tp1_sizing 1 100 20 c8_trade rfl).2.2.1 (by norm_num)).1,
   (c8_tp1_sizing 1 10 20 c8_trade rfl).2.1 (by norm_num),
   (c8_tp1_sizing 1 10 20 c8_trade rfl).2.2.2 (by norm_num)⟩

/-- C9: a partial close asked for more than the current position returns
False and leaves the whole tracker untouched — no trade mutation, no
execution-detail entry, no realized P&L change, and no persistence
write. -/
theorem c9_partial_close_error_atomic (tr : TrackerState) (trade_uuid : String)
    (t : Trade) (p q : Rat) (r : String)
    (hl : tr.trades.lookup trade_uuid = some t)
    (hq : t.current_qty_asset < q) :
    close_trade_partial_tracker tr trade_uuid p q r = (false, tr) := by
  unfold close_trade_partial_tracker close_trade_partial
  simp only [hl]
  rw [if_pos (show q > t.current_qty_asset from hq)]

/-- C9, witness: closing 3 units of a 2-unit position fails and leaves the
tracker as it was. -/
theorem c9_partial_close_error_atomic_witness :
    close_trade_partial_tracker c9_tracker "u1" 55 3 "partial" = (false, c9_tracker) :=
  c9_partial_close_error_atomic c9_tracker "u1" c9_trade 55 3 "partial" rfl
    (by norm_num [c9_trade, add_trade])

/-- C10: registering a stop watch with a missing order id, asset or
timeframe, or with a nonpositive stop price or position size, returns
False and leaves the manager untouched: the registry is unchanged and
monitoring is not started. -/
theorem c10_add_watch_rejects_invalid (st : SLManagerState) (order_id asset : String)
    (stop_price : Rat) (timeframe : String) (is_long : Bool) (position_size : Rat)
    (h : order_id = "" ∨ asset = "" ∨ timeframe = "" ∨
         stop_price ≤ 0 ∨ position_size ≤ 0) :
    add_candle_close_stop_loss st order_id asset stop_price timeframe is_long
      position_size = (false, st) := by
  unfold add_candle_close_stop_loss
  by_cases h1 : order_id = "" ∨ asset = "" ∨ timeframe = ""
  · rw [if_pos h1]
  · rw [if_neg h1]
    have h2 : stop_price ≤ 0 ∨ position_size ≤ 0 := by tauto
    rw [if_pos h2]

/-- C10, witness: an empty order id is rejected without touching the empty
manager. -/
theorem c10_add_watch_rejects_invalid_witness :
    add_candle_close_stop_loss c10_state "" "BTC" 95 "1h" true 1
      = (false, c10_state) :=
  c10_add_watch_rejects_invalid c10_state "" "BTC" 95 "1h" true 1 (Or.inl rfl)

/-- A watch whose per-watch check produced no removal is a fixpoint of the
check: running it again against the same environment is a skip. -/
lemma checkOne_fixpoint (env : SLEnv) (sl : CandleCloseStopLoss)
    (h : (checkOne env sl).2.2 = false) :
    checkOne env (checkOne env sl).1 = ((checkOne env sl).1, [], false) := by
  cases hc : env.candle sl.asset sl.timeframe with
  | none =>
    have h1 : checkOne env sl = (sl, [], false) := by simp [checkOne, hc]
    rw [h1]
    exact h1
  | some c =>
    cases hl : sl.last_checked_candle with
    | some lc =>
      by_cases hle : c.timestamp ≤ lc
      · have h1 : checkOne env sl = (sl, [], false) := by
          simp [checkOne, hc, hl, hle]
        rw [h1]
        exact h1
      · by_cases htr : if sl.is_long then c.close ≤ sl.stop_price
                       else c.close ≥ sl.stop_price
        · have h1 : (checkOne env sl).2.2 = true := by
            simp [checkOne, hc, hl, hle, htr]
          rw [h1] at h
          cases h
        · have h1 : checkOne env sl =
              ({ sl with last_checked_candle := some c.timestamp }, [], false) := by
            simp [checkOne, hc, hl, hle, htr]
          rw [h1]
          simp [checkOne, hc]
    | none =>
      by_cases htr : if sl.is_long then c.close ≤ sl.stop_price
                     else c.close ≥ sl.stop_price
      · have h1 : (checkOne env sl).2.2 = true := by
          simp [checkOne, hc, hl, htr]
        rw [h1] at h
        cases h
      · have h1 : checkOne env sl =
            ({ sl with last_checked_candle := some c.timestamp }, [], false) := by
          simp [checkOne, hc, hl, htr]
        rw [h1]
        simp [checkOne, hc]

/-- Scanning a registry of fixpoint watches changes nothing and produces
no removal and no effect. -/
lemma scanStops_of_fixpoints (env : SLEnv)
    (l : List (String × CandleCloseStopLoss))
    (h : ∀ p ∈ l, checkOne env p.2 = (p.2, [], false)) :
    scanStops env l = (l, [], []) := by
  induction l with
  | nil => rfl
  | cons hd tl ih =>
    have hhd := h hd (List.mem_cons_self hd tl)
    have htl : ∀ p ∈ tl, checkOne env p.2 = (p.2, [], false) :=
      fun p hp => h p (List.mem_cons_of_mem hd hp)
    simp [scanStops, hhd, ih htl]

/-- Unfolding equation of scanStops on a cons cell. -/
lemma scanStops_cons (env : SLEnv) (oid : String) (sl : CandleCloseStopLoss)
    (tl : List (String × CandleCloseStopLoss)) :
    scanStops env ((oid, sl) :: tl) =
      ((oid, (checkOne env sl).1) :: (scanStops env tl).1,
       (if (checkOne env sl).2.2 then [oid] else []) ++ (scanStops env tl).2.1,
       (checkOne env sl).2.1 ++ (scanStops env tl).2.2) := rfl

/-- Every surviving entry of a scan (updated but not slated for removal)
is a fixpoint of the per-watch check. -/
lemma scanStops_survivor_fixpoint (env : SLEnv)
    (l : List (String × CandleCloseStopLoss)) :
    ∀ p ∈ (scanStops env l).1, p.1 ∉ (scanStops env l).2.1 →
      checkOne env p.2 = (p.2, [], false) := by
  induction l with
  | nil => intro p hp; cases hp
  | cons hd tl ih =>
    obtain ⟨oid, sl⟩ := hd
    intro p hp hnc
    rw [scanStops_cons] at hp hnc
    rw [List.mem_append] at hnc
    push_neg at hnc
    rcases List.mem_cons.mp hp with hph | hpt
    · subst hph
      by_cases hrem : (checkOne env sl).2.2 = true
      · exfalso
        apply hnc.1
        rw [if_pos hrem]
        exact List.mem_singleton_self oid
      · have := checkOne_fixpoint env sl (Bool.eq_false_iff.mpr hrem)
        simpa using this
    · exact ih p hpt hnc.2

/-- An entry whose per-watch check fires ends up in the removal list. -/
lemma scanStops_removed_mem (env : SLEnv)
    (l : List (String × CandleCloseStopLoss)) (oid : String)
    (sl : CandleCloseStopLoss) (hmem : (oid, sl) ∈ l)
    (hrem : (checkOne env sl).2.2 = true) :
    oid ∈ (scanStops env l).2.1 := by
  induction l with
  | nil => cases hmem
  | cons hd tl ih =>
    obtain ⟨hoid, hsl⟩ := hd
    rw [scanStops_cons, List.mem_append]
    rcases List.mem_cons.mp hmem with hph | hpt
    · left
      cases hph
      rw [if_pos hrem]
      exact List.mem_singleton_self oid
    · right
      exact ih hpt

/-- A manager whose every watch is a fixpoint of the per-watch check is
left untouched by the tick, with no effects. -/
lemma check_of_fixpoints (env : SLEnv) (st : SLManagerState)
    (h : ∀ p ∈ st.active_stops, checkOne env p.2 = (p.2, [], false)) :
    check_stop_loss_conditions env st = (st, []) := by
  unfold check_stop_loss_conditions
  rw [scanStops_of_fixpoints env _ h]
  simp

/-- C3: the candle-close stop-loss tick de-duplicates on the candle
timestamp.  First conjunct: a watch whose latest completed candle is not
strictly newer than its last_checked_candle is skipped entirely (watch
unchanged, no effects, no removal).  Second conjunct: running the tick a
second time against an unchanged environment leaves the registry exactly
as after the first tick and produces zero side effects — no order, no
ledger update, no watch removal. -/
theorem c3_tick_deduplicates (env : SLEnv) (st : SLManagerState) :
    (∀ (sl : CandleCloseStopLoss) (c : Candle) (lc : Int),
      env.candle sl.asset sl.timeframe = some c →
      sl.last_checked_candle = some lc → c.timestamp ≤ lc →
      checkOne env sl = (sl, [], false)) ∧
    check_stop_loss_conditions env (check_stop_loss_conditions env st).1 =
      ((check_stop_loss_conditions env st).1, []) := by
  constructor
  · intro sl c lc hc hl hle
    simp [checkOne, hc, hl, hle]
  · have hfix : ∀ p ∈ (check_stop_loss_conditions env st).1.active_stops,
        checkOne env p.2 = (p.2, [], false) := by
      intro p hp
      have hp' : p ∈ (scanStops env st.active_stops).1 ∧
          (!(scanStops env st.active_stops).2.1.contains p.1) = true :=
        List.mem_filter.mp hp
      refine scanStops_survivor_fixpoint env st.active_stops p hp'.1 ?_
      simpa using hp'.2
    exact check_of_fixpoints env _ hfix

/-- C3, witness: the watch that already evaluated candle time 200 skips
the candle at time 150, and the double tick on the sample manager is a
no-op the second time. -/
theorem c3_tick_deduplicates_witness :
    checkOne c3_env c3_watch = (c3_watch, [], false) ∧
    check_stop_loss_conditions c3_env
        (check_stop_loss_conditions c3_env c3_state).1 =
      ((check_stop_loss_conditions c3_env c3_state).1, []) :=
  ⟨(c3_tick_deduplicates c3_env c3_state).1 c3_watch
      (Candle.mk 150 100 101 99 100) 200 rfl rfl (by decide),
   (c3_tick_deduplicates c3_env c3_state).2⟩

/-- C4, counterexample: with a gateway whose market-order placement fails,
a triggering watch (candle close 90 below stop 95) is nevertheless deleted
from the registry by the tick — the only effects are the failed order
attempt and the removal, with no ledger update — contradicting the claim
that the watch stays registered for retry. -/
theorem c4_counterexample :
    (c4_env.order_ok "BTC" false 1 = false) ∧
    (check_stop_loss_conditions c4_env c4_state).2 =
      [SLEffect.placeOrder "BTC" false 1, SLEffect.removeWatch "o1"] ∧
    (check_stop_loss_conditions c4_env c4_state).1.active_stops = [] := by
  refine ⟨rfl, ?_, ?_⟩ <;>
    simp [check_stop_loss_conditions, scanStops, checkOne, execute_stop_loss,
      c4_env, c4_state, c4_watch] <;> norm_num

/-- C4, amended: whenever a watch's stop condition fires on a tick, the
watch is removed from the registry during that same tick regardless of
whether the flattening market order succeeded; an order failure is only
logged, and there is no retry on a later candle. -/
theorem c4_triggered_watch_always_removed (env : SLEnv) (st : SLManagerState)
    (oid : String) (sl : CandleCloseStopLoss)
    (hmem : (oid, sl) ∈ st.active_stops)
    (hrem : (checkOne env sl).2.2 = true) :
    ((check_stop_loss_conditions env st).1.active_stops.all
      (fun p => p.1 != oid)) = true := by
  have hc := scanStops_removed_mem env st.active_stops oid sl hmem hrem
  rw [List.all_eq_true]
  intro p hp
  have hp' : p ∈ (scanStops env st.active_stops).1 ∧
      (!(scanStops env st.active_stops).2.1.contains p.1) = true :=
    List.mem_filter.mp hp
  have hnm : p.1 ∉ (scanStops env st.active_stops).2.1 := by
    simpa using hp'.2
  have hne : p.1 ≠ oid := by
    intro he
    rw [he] at hnm
    exact hnm hc
  simpa using hne

/-- C4, witness: on the failing-gateway environment the triggered watch
o1 is gone from the registry after the tick. -/
theorem c4_triggered_watch_always_removed_witness :
    ((check_stop_loss_conditions c4_env c4_state).1.active_stops.all
      (fun p => p.1 != "o1")) = true :=
  c4_triggered_watch_always_removed c4_env c4_state "o1" c4_watch
    (by simp [c4_state]) (by simp [checkOne, c4_env, c4_watch]; norm_num)

/-- C5, counterexample: the execution handoff registers the stop watch at
the pending trade's negation price (100), not its absolute stop-loss
price (80), so the registered stop price differs from the absolute
stop. -/
theorem c5_counterexample :
    ((execute_pending_trade c5_env c5_pt).2.map WatchReq.stop_price
      = some 100) ∧
    c5_pt.abs_stop_loss_price = 80 ∧ ((100 : Rat) ≠ 80) := by
  refine ⟨?_, rfl, by norm_num⟩
  norm_num [execute_pending_trade, c5_env, c5_pt, c5_res]

/-- C5, amended: whenever the triggered pending order's market order
succeeds, the handoff creates the ledger trade (status active, quantity
the filled amount, stop_loss_price the absolute stop) and requests a
candle-close stop watch whose stop price is the pending order's negation
price — not the absolute stop-loss price. -/
theorem c5_handoff_registers_negation_stop (env : ExecEnv) (pt : PendingTrade)
    (cp : Rat) (d : Nat) (res : OrderRes)
    (h1 : pt.abs_stop_loss_price ≠ 0) (h2 : pt.amount_usd ≠ 0)
    (hp : env.last_price pt.symbol = some cp)
    (hd : env.info_szDecimals pt.symbol = some d)
    (ho : env.place_order pt.symbol pt.is_long
      (py_round_to d (pt.amount_usd /
        get_correct_price (get_asset_name pt.symbol) cp)) = some res) :
    (execute_pending_trade env pt).2 =
      some { asset := pt.symbol, stop_price := pt.negation_price,
             timeframe := pt.timeframe, is_long := pt.is_long,
             position_size := res.asset_amount } ∧
    ∃ tr, (execute_pending_trade env pt).1 = some tr ∧
      tr.stop_loss_price = pt.abs_stop_loss_price ∧
      tr.status = "active" ∧
      tr.current_qty_asset = res.asset_amount ∧
      tr.currency = pyUpper pt.symbol := by
  unfold execute_pending_trade
  rw [if_neg h1, if_neg h2]
  simp only [hp, hd, ho]
  exact ⟨trivial, _, rfl, rfl, rfl, rfl, rfl⟩

/-- C5, witness: on the sample environment the handoff yields the watch at
the negation price 100 and a ledger trade at the absolute stop 80. -/
theorem c5_handoff_registers_negation_stop_witness :
    (execute_pending_trade c5_env c5_pt).2 =
      some { asset := c5_pt.symbol, stop_price := c5_pt.negation_price,
             timeframe := c5_pt.timeframe, is_long := c5_pt.is_long,
             position_size := c5_res.asset_amount } ∧
    ∃ tr, (execute_pending_trade c5_env c5_pt).1 = some tr ∧
      tr.stop_loss_price = c5_pt.abs_stop_loss_price ∧
      tr.status = "active" ∧
      tr.current_qty_asset = c5_res.asset_amount ∧
      tr.currency = pyUpper c5_pt.symbol :=
  c5_handoff_registers_negation_stop c5_env c5_pt 104 3 c5_res
    (by norm_num [c5_pt]) (by norm_num [c5_pt]) rfl rfl rfl

/-- C6: on a tick where the same observation satisfies both the negation
condition (candle close at or beyond the negation price) and the entry
condition (current price at or beyond the trigger), the negation check is
acted on first: the pending order's outcome is negation, and the tick on a
registry holding it removes it with nothing handed off for execution — so
no market order is placed and no ledger entry is created. -/
theorem c6_negation_evaluated_before_entry (env : MonEnv) (pt : PendingTrade)
    (c : Candle) (p0 : Rat) (tid : String)
    (hc : env.candle pt.symbol pt.timeframe = some c)
    (hp : env.last_price pt.symbol = some p0)
    (hneg : if pt.is_long then c.close ≤ pt.negation_price
            else c.close ≥ pt.negation_price)
    (hent : if pt.is_long then
              get_correct_price (get_asset_name pt.symbol) p0 ≤ pt.mid_price
            else
              get_correct_price (get_asset_name pt.symbol) p0 ≥ pt.mid_price) :
    monitor_check env pt = MonitorAction.negate ∧
    monitor_tick env [(tid, pt)] = ([], []) := by
  have hm : monitor_check env pt = MonitorAction.negate := by
    by_cases hl : pt.is_long = true
    · rw [if_pos hl] at hneg
      simp [monitor_check, hc, hp, hl, hneg]
    · rw [if_neg hl] at hneg
      simp [monitor_check, hc, hp, hl, hneg]
  refine ⟨hm, ?_⟩
  simp [monitor_tick, hm]

/-- C6, witness: with candle close 99 against negation 100 and price 99
against trigger 105 (both conditions true), the long pending trade is
negated and the tick removes it without executing anything. -/
theorem c6_negation_evaluated_before_entry_witness :
    monitor_check c6_env c6_pt = MonitorAction.negate ∧
    monitor_tick c6_env [("t1", c6_pt)] = ([], []) :=
  c6_negation_evaluated_before_entry c6_env c6_pt (Candle.mk 2 101 102 98 99)
    99 "t1" rfl rfl (by decide) (by decide)

/-- PEPE is a special asset, so its exchange name is kPEPE. -/
lemma get_asset_name_PEPE : get_asset_name "PEPE" = "kPEPE" := by decide

/-- kPEPE carries the k prefix. -/
lemma startsWithChar_k_kPEPE : startsWithChar 'k' "kPEPE" = true := by decide

/-- BTC is not special, so its exchange name is itself. -/
lemma get_asset_name_BTC : get_asset_name "BTC" = "BTC" := by decide

/-- BTC carries no k prefix. -/
lemma startsWithChar_k_BTC : startsWithChar 'k' "BTC" = false := by decide

/-- C7, counterexample: for the special asset PEPE, a reference candle
with high 110 and low 100 yields a pending long order whose trigger is
105000 and whose negation is 100000 (the get_correct_price scaling by
1000), not the candle midpoint 105 and low 100 the claim states for every
entry signal. -/
theorem c7_counterexample :
    ((handle_entry_alert c7_env "enter_long" "PEPE" "1h").map
        (fun pt => (pt.mid_price, pt.negation_price))
      = some (105000, 100000)) ∧
    ¬ ((105000 : Rat) = 105 ∧ (100000 : Rat) = 100) := by
  constructor
  · norm_num [handle_entry_alert, c7_env, get_asset_name_PEPE,
      get_correct_price, startsWithChar_k_kPEPE]
  · norm_num

/-- C7, amended: an accepted entry signal yields a pending order whose
trigger is get_correct_price applied to the reference candle midpoint and
whose negation is get_correct_price applied to the candle low (long) or
high (short) — the identity for ordinary assets, a scaling by 1000 for the
special k-quoted assets; the absolute stop is 0.8 times the low (long) or
1.2 times the high (short), not price-corrected. -/
theorem c7_entry_levels (env : EntryEnv) (alert_type symbol timeframe : String)
    (c : Candle) (hc : env.candle symbol timeframe = some c)
    (hcap : env.active_trades_count < 5) :
    ∃ pt, handle_entry_alert env alert_type symbol timeframe = some pt ∧
      pt.mid_price = get_correct_price (get_asset_name symbol) ((c.high + c.low) / 2) ∧
      pt.negation_price = get_correct_price (get_asset_name symbol)
        (if alert_type = "enter_long" then c.low else c.high) ∧
      pt.abs_stop_loss_price =
        (if alert_type = "enter_long" then c.low * (8 / 10) else c.high * (12 / 10)) ∧
      pt.symbol = symbol ∧ pt.timeframe = timeframe ∧
      pt.is_long = decide (alert_type = "enter_long") ∧
      pt.amount_usd = env.dynamic_usd ∧ pt.reference_candle = c := by
  unfold handle_entry_alert
  rw [if_neg (not_le.mpr hcap)]
  simp only [hc]
  refine ⟨_, rfl, rfl, ?_, ?_, rfl, rfl, rfl, rfl, rfl⟩
  · by_cases h : alert_type = "enter_long" <;> simp [h]
  · by_cases h : alert_type = "enter_long" <;> simp [h]

/-- C7, witness: the non-special symbol BTC with reference candle high 110
and low 100 gives trigger price 105 and negation price 100, as in the
spec's scenario. -/
theorem c7_entry_levels_witness :
    ((handle_entry_alert c7_env "enter_long" "BTC" "1h").map
      (fun pt => (pt.mid_price, pt.negation_price))) = some (105, 100) := by
  obtain ⟨pt, hpt, hmid, hneg, _, _, _, _, _, _⟩ :=
    c7_entry_levels c7_env "enter_long" "BTC" "1h" (Candle.mk 3 104 110 100 104)
      rfl (by norm_num [c7_env])
  rw [hpt, Option.map_some']
  rw [hmid, hneg]
  norm_num [get_correct_price, get_asset_name_BTC, startsWithChar_k_BTC]

end HLBot
